import Mathlib

/-!
Verification of the engine's component/animation/layout core against its
natural-language specification.

The development shallowly embeds the JavaScript sources:

* `src/framework/components/component.js` – the `Component` base class with its
  schema-driven accessors and enable/disable hooks (namespace `Component`);
* `src/framework/components/model/component.js` – the `model` setter of
  `ModelComponent` (namespace `ModelComponent`);
* the `AnimComponent` source file – state-graph loading, parameter accessors,
  trigger handling and the per-frame `update` (namespace `AnimComponent`);
* `src/framework/components/layout-group/layout-calculator.js` – line
  splitting, stretch fitting and element size sanitization
  (namespace `LayoutCalculator`).

JavaScript numbers are modelled as rationals (`ℚ`); the single infinite value
the verified code paths rely on (the `Number.POSITIVE_INFINITY` default for
`maxWidth`/`maxHeight`) is modelled explicitly where it matters.  Stateful
methods become functions from a state structure to a new state; calls that can
throw return `Option`; diagnostic logging (`Debug.error` / `Debug.log`)
becomes a returned `Bool` flag.
-/

namespace Component

/-- JavaScript values stored in a component's backing data record.  `undefined`
is JavaScript `undefined` (the result of reading an absent key), `null` is
JavaScript `null`.  Numbers are modelled as rationals. -/
inductive JSVal where
  | undefined
  | null
  | bool (b : Bool)
  | num (q : ℚ)
  | str (s : String)
deriving DecidableEq

/-- JavaScript truthiness: `undefined`, `null`, `false`, `0` and the empty
string are falsy, everything else is truthy.  Used because `onSetEnabled`
branches on `if (newValue)`. -/
def truthy : JSVal → Bool
  | .undefined => false
  | .null => false
  | .bool b => b
  | .num q => q ≠ 0
  | .str s => s ≠ ""

/-- Reading `data[name]` from a JavaScript object: an absent key yields
`undefined`. -/
def lookupData (d : List (String × JSVal)) (name : String) : JSVal :=
  (d.lookup name).getD .undefined

/-- Writing `data[name] = value` on a JavaScript object: an existing key is
updated in place (insertion order kept), a new key is appended. -/
def writeData (d : List (String × JSVal)) (name : String) (v : JSVal) :
    List (String × JSVal) :=
  if (d.lookup name).isSome then
    d.map (fun kv => if kv.1 = name then (kv.1, v) else kv)
  else
    d ++ [(name, v)]

/-- State of a `Component` relevant to the accessor contract:
`data` is `system.store[entity.getGuid()].data` (`none` when the component is
not registered in its system's storage, in which case the `data` getter
yields `null`), and `entityEnabled` is `this.entity.enabled`. -/
structure State where
  data : Option (List (String × JSVal))
  entityEnabled : Bool
deriving DecidableEq

/-- Observable effects of one accessor assignment, in firing order: the
generic `set` event, the re-fired `set_<name>` event (both carrying
`(name, oldValue, newValue)`), and invocations of the `onEnable`/`onDisable`
hooks triggered by the `set_enabled` listener. -/
inductive Ev where
  | set (name : String) (oldValue newValue : JSVal)
  | setNamed (name : String) (oldValue newValue : JSVal)
  | enableHook
  | disableHook
deriving DecidableEq

/-- Event is the generic `set` event. -/
def isSetEv : Ev → Bool
  | .set _ _ _ => true
  | _ => false

/-- Event is the name-specific `set_<name>` event for the given name. -/
def isSetNamedEv (name : String) : Ev → Bool
  | .setNamed n _ _ => n = name
  | _ => false

/-- From the source `Component.onSetEnabled` (component.js lines 67-77): when
the old and new values differ and the owning entity is enabled, invoke
`onEnable()` if the new value is truthy, else `onDisable()`.  The hook
invocations are returned as events. -/
def onSetEnabledEvents (entityEnabled : Bool) (oldValue newValue : JSVal) :
    List Ev :=
  if oldValue ≠ newValue then
    if entityEnabled then
      if truthy newValue then [.enableHook] else [.disableHook]
    else []
  else []

/-- From the source `Component._buildAccessors` setter (component.js lines
50-55) together with the listeners registered in the constructor (lines
32-36): store the old value, write the new value, fire `set`, which the
constructor listener re-fires as `set_<name>`; a `set_enabled` listener runs
`onSetEnabled`.  When the component is not registered (`this.data` is
`null`), reading `data[name]` throws, modelled as `none`. -/
def setAccessor (c : State) (name : String) (value : JSVal) :
    Option (State × List Ev) :=
  match c.data with
  | none => none
  | some d =>
    let oldValue := lookupData d name
    let d' := writeData d name value
    let events := [Ev.set name oldValue value, Ev.setNamed name oldValue value]
    let hooks :=
      if name = "enabled" then onSetEnabledEvents c.entityEnabled oldValue value
      else []
    some ({ c with data := some d' }, events ++ hooks)

/-- The full event list produced by one accessor assignment on a registered
component (the two `set`/`set_<name>` events followed by any hook
invocations). -/
def assignEvents (c : State) (d : List (String × JSVal)) (name : String)
    (v : JSVal) : List Ev :=
  [Ev.set name (lookupData d name) v, Ev.setNamed name (lookupData d name) v]
    ++ (if name = "enabled" then onSetEnabledEvents c.entityEnabled (lookupData d name) v
        else [])

end Component

namespace ModelComponent

/-- A `Model` instance as seen by the `model` setter.  `mid` stands for the
JavaScript object identity (two `Model` values model the same object exactly
when their `mid` agrees), `immutable` is the `_immutable` flag the setter
uses to mark a model as owned by a component. -/
structure Model where
  mid : ℕ
  immutable : Bool
deriving DecidableEq

/-- State of a `ModelComponent` touched by the `model` setter
(model/component.js lines 236-305): the current `_model`, the
`_clonedModel` flag, the component and entity enabled flags, and whether the
current model's mesh instances are held by the scene's render layers. -/
structure State where
  _model : Option Model
  _clonedModel : Bool
  enabled : Bool
  entityEnabled : Bool
  modelInLayers : Bool
deriving DecidableEq

/-- From the source `set model` (model/component.js lines 236-305).  Returns
the new state together with a flag saying whether `Debug.error` reported a
diagnostic.  If the incoming value is the current model, return immediately;
if it is flagged immutable (owned by another component), report and return
without assigning; otherwise tear the previous model down (clear its
immutable flag, remove it from the layers, destroy it when cloned) and
install the new one (flag it immutable, add to layers when enabled).
Scene-graph side effects (`addChild`/`removeChild`, material mapping, anim
notification) fall outside the modelled state. -/
def setModel (c : State) (value : Option Model) : State × Bool :=
  if c._model = value then (c, false)
  else if (match value with | some m => m.immutable | none => false) then
    (c, true)
  else
    let c1 :=
      match c._model with
      | some _ => { c with modelInLayers := false, _clonedModel := false }
      | none => c
    match value with
    | some m =>
        ({ c1 with _model := some { m with immutable := true },
                   modelInLayers := c1.enabled && c1.entityEnabled }, false)
    | none => ({ c1 with _model := none }, false)

end ModelComponent

namespace AnimComponent

/-- The typed animation parameter kinds (`ANIM_PARAMETER_FLOAT` etc. from the
animation controller constants). -/
inductive AnimParamType where
  | float
  | integer
  | boolean
  | trigger
deriving DecidableEq

/-- A parameter value: a number (float/integer parameters) or a boolean
(boolean/trigger parameters). -/
inductive PVal where
  | num (q : ℚ)
  | bl (b : Bool)
deriving DecidableEq

/-- One entry of the component's parameter map: `{ type, value }`. -/
structure AnimParam where
  type : AnimParamType
  value : PVal
deriving DecidableEq

/-- Updating the binding of a key in a JavaScript object (first occurrence;
keys of the modelled objects are unique). -/
def assocUpdate {α : Type} : List (String × α) → String → (α → α) →
    List (String × α)
  | [], _, _ => []
  | (k, v) :: rest, name, f =>
    if k = name then (k, f v) :: rest else (k, v) :: assocUpdate rest name f

/-- Writing `obj[k] = v` on a JavaScript object: existing key updated in
place, new key appended. -/
def assocWrite {α : Type} (l : List (String × α)) (k : String) (v : α) :
    List (String × α) :=
  if (l.lookup k).isSome then assocUpdate l k (fun _ => v) else l ++ [(k, v)]

/-- Modelled from the spec: `ANIM_CONTROL_STATES` lives in the animation
controller constants, a file not among the sources; per spec §4.3 the control
states are the synthetic `"START"` state and the reserved names, which the
state machine description lists as the end and any-state markers. -/
def ANIM_CONTROL_STATES : List String := ["START", "END", "ANY"]

/-- One state entry of a state-graph layer, as found in the graph data
(`{ name, speed, loop, defaultState }`); only `name` is consumed by the
embedded code paths, the remaining fields are data handed to the external
`AnimController`. -/
structure AnimStateDef where
  name : String
  speed : ℚ := 1
deriving DecidableEq

/-- One layer of a state graph: `{ name, states, transitions, ... }`
(weight/mask/blendType are passed through to the external controller). -/
structure AnimGraphLayer where
  name : String
  states : List AnimStateDef
  transitions : List (String × String) := []
deriving DecidableEq

/-- A state graph: layers plus declared typed parameters. -/
structure AnimStateGraph where
  layers : List AnimGraphLayer
  parameters : List (String × AnimParam)
deriving DecidableEq

/-- Modelled from the spec: the `AnimComponentLayer` source is not among the
sources.  A runtime layer holds its name, the names of the states handed to
its controller, and its blend/transition progress; `observedParams` records
the shared parameter map the layer read during its most recent update,
capturing the spec's "after all layers have had a chance to read the
trigger" (§4.3). -/
structure Layer where
  name : String
  states : List String
  progress : ℚ
  observedParams : List (String × AnimParam)
deriving DecidableEq

/-- Modelled from the spec: `AnimComponentLayer.update` (code not under the
sources; spec §4.3) advances the
layer's blend/transition progress by the already-scaled dt while reading the
shared parameter map; it does not write parameter values. -/
def Layer.update (l : Layer) (params : List (String × AnimParam)) (dt : ℚ) :
    Layer :=
  { l with progress := l.progress + dt, observedParams := params }

/-- State of an `AnimComponent` as initialized by its constructor (lines
32-48 of the component source).  `_targets`, `_rootBone` and asset event
subscriptions fall outside the modelled state.  `_consumedTriggers` is a
JavaScript `Set`: insertion-ordered and duplicate-free. -/
structure State where
  _stateGraphAsset : Option ℕ := none
  _animationAssets : List (String × Option ℕ) := []
  _speed : ℚ := 1
  _activate : Bool := true
  _playing : Bool := false
  _stateGraph : Option AnimStateGraph := none
  _layers : List Layer := []
  _layerIndices : List (String × ℕ) := []
  _parameters : List (String × AnimParam) := []
  _consumedTriggers : List String := []
deriving DecidableEq

/-- A freshly constructed `AnimComponent`. -/
def freshAnim : State := {}

/-- From the source `_addLayer` (lines 282-304): build the binder, evaluator
and controller (external collaborators), push a new runtime layer and record
its index in `_layerIndices`.  The runtime layer's `states` are the names of
the states handed to its controller. -/
def _addLayer (c : State) (name : String) (states : List AnimStateDef) :
    State :=
  let layerIndex := c._layers.length
  { c with
      _layers := c._layers
        ++ [{ name := name, states := states.map (fun s => s.name),
              progress := 0, observedParams := [] }],
      _layerIndices := assocWrite c._layerIndices name layerIndex }

/-- From the source `loadAnimationAssets` (lines 401-429): walks the layers
and the animation-asset manifest, clearing node animations for unassigned
states and requesting loads from the external asset registry.  It only reads
`_animationAssets` and never writes any modelled field, so on the modelled
state it is the identity. -/
def loadAnimationAssets (c : State) : State := c

/-- From the source `setupAnimationAssets` (lines 382-399): for every state
of every layer whose name is not a control state, insert an `{ asset: null }`
manifest entry keyed `"<layerName>:<stateName>"` unless an entry already
exists; then call `loadAnimationAssets`. -/
def setupAnimationAssets (c : State) : State :=
  let withAssets := c._layers.foldl (fun acc layer =>
    layer.states.foldl (fun acc2 stateName =>
      if stateName ∈ ANIM_CONTROL_STATES then acc2
      else
        let stateKey := layer.name ++ ":" ++ stateName
        if (acc2._animationAssets.lookup stateKey).isSome then acc2
        else { acc2 with
                 _animationAssets := acc2._animationAssets ++ [(stateKey, none)] })
      acc) c
  loadAnimationAssets withAssets

/-- From the source `loadStateGraph` (lines 362-380): store the graph, build
the parameter map from the graph's declared parameters (copying type and
value), clear the layer list (`_layerIndices` is not cleared here), add one
runtime layer per graph layer, then `setupAnimationAssets`. -/
def loadStateGraph (c : State) (stateGraph : AnimStateGraph) : State :=
  let c1 := { c with
    _stateGraph := some stateGraph,
    _parameters := stateGraph.parameters.map
      (fun kp : String × AnimParam =>
        (kp.1, { type := kp.2.type, value := kp.2.value })) }
  let c2 := { c1 with _layers := [] }
  let c3 := stateGraph.layers.foldl
    (fun acc layer => _addLayer acc layer.name layer.states) c2
  setupAnimationAssets c3

/-- From the source `removeStateGraph` (lines 444-452). -/
def removeStateGraph (c : State) : State :=
  { c with
      _stateGraph := none,
      _stateGraphAsset := none,
      _animationAssets := [],
      _layers := [],
      _layerIndices := [],
      _parameters := [],
      _playing := false }

/-- From the source `set stateGraphAsset` (lines 54-58): the `value === null`
branch calls `removeStateGraph` and returns; the non-null branch only talks
to the external asset registry and is outside the modelled state. -/
def setStateGraphAssetNull (c : State) : State :=
  removeStateGraph c

/-- From the source `getParameterValue` (lines 606-612): return the value
when the named parameter exists with the requested type, else log a
diagnostic and return `undefined` (`none`).  The `Bool` is the
logged-diagnostic flag. -/
def getParameterValue (c : State) (name : String) (type : AnimParamType) :
    Option PVal × Bool :=
  match c._parameters.lookup name with
  | some param =>
      if param.type = type then (some param.value, false) else (none, true)
  | none => (none, true)

/-- From the source `setParameterValue` (lines 614-621): write `param.value`
when the named parameter exists with the requested type, else log a
diagnostic and change nothing. -/
def setParameterValue (c : State) (name : String) (type : AnimParamType)
    (value : PVal) : State × Bool :=
  match c._parameters.lookup name with
  | some param =>
      if param.type = type then
        let params := assocUpdate c._parameters name
          (fun p => { p with value := value })
        ({ c with _parameters := params }, false)
      else (c, true)
  | none => (c, true)

/-- From the source `getFloat` (lines 630-632). -/
def getFloat (c : State) (name : String) : Option PVal × Bool :=
  getParameterValue c name .float

/-- From the source `setFloat` (lines 641-643). -/
def setFloat (c : State) (name : String) (value : ℚ) : State × Bool :=
  setParameterValue c name .float (.num value)

/-- From the source `getInteger` (lines 652-654). -/
def getInteger (c : State) (name : String) : Option PVal × Bool :=
  getParameterValue c name .integer

/-- From the source `setInteger` (lines 663-669): a non-integral number is
rejected with `Debug.error` before any parameter lookup (`value % 1 === 0`
is `den = 1` on rationals). -/
def setInteger (c : State) (name : String) (value : ℚ) : State × Bool :=
  if value.den = 1 then setParameterValue c name .integer (.num value)
  else (c, true)

/-- From the source `getBoolean` (lines 678-680). -/
def getBoolean (c : State) (name : String) : Option PVal × Bool :=
  getParameterValue c name .boolean

/-- From the source `setBoolean` (lines 689-691); the source coerces with
`!!value`, here the input is already boolean. -/
def setBoolean (c : State) (name : String) (value : Bool) : State × Bool :=
  setParameterValue c name .boolean (.bl value)

/-- From the source `getTrigger` (lines 700-702). -/
def getTrigger (c : State) (name : String) : Option PVal × Bool :=
  getParameterValue c name .trigger

/-- Adding an element to a JavaScript `Set` (insertion order, no
duplicates). -/
def setAdd (s : List String) (x : String) : List String :=
  if x ∈ s then s else s ++ [x]

/-- From the source `setTrigger` (lines 711-716): set the named trigger
parameter to `true`; when `singleFrame` is requested, also record the name
in `_consumedTriggers` (this happens whether or not the parameter write
succeeded). -/
def setTrigger (c : State) (name : String) (singleFrame : Bool) :
    State × Bool :=
  let r := setParameterValue c name .trigger (.bl true)
  if singleFrame then
    ({ r.1 with _consumedTriggers := setAdd r.1._consumedTriggers name }, r.2)
  else r

/-- From the source `resetTrigger` (lines 724-726). -/
def resetTrigger (c : State) (name : String) : State × Bool :=
  setParameterValue c name .trigger (.bl false)

/-- From the source `update` (lines 735-743): advance every layer by
`dt * speed` (each reads the shared parameter map, still holding any
pending triggers), then set every consumed trigger's parameter value to
`false` and clear the consumed set.  Clearing a trigger that is absent from
the parameter map throws in JavaScript (`this.parameters[trigger].value`),
modelled as `none`. -/
def update (c : State) (dt : ℚ) : Option State :=
  let c1 := { c with
    _layers := c._layers.map
      (fun l : Layer => l.update c._parameters (dt * c._speed)) }
  let cleared := c1._consumedTriggers.foldl
    (fun (acc : Option (List (String × AnimParam))) (trigger : String) =>
      acc.bind (fun params =>
      if (params.lookup trigger).isSome then
        some (assocUpdate params trigger (fun p => { p with value := .bl false }))
      else none))
    (some c1._parameters)
  cleared.map (fun params =>
    { c1 with _parameters := params, _consumedTriggers := [] })

end AnimComponent

namespace LayoutCalculator

/-- The per-axis fitting modes (layout-group constants file). -/
inductive FittingMode where
  | FITTING_NONE
  | FITTING_STRETCH
  | FITTING_SHRINK
  | FITTING_BOTH
deriving DecidableEq

/-- The internal `FITTING_ACTION` enumeration (lines 45-49). -/
inductive FittingAction where
  | NONE
  | APPLY_STRETCHING
  | APPLY_SHRINKING
deriving DecidableEq

/-- From the source `determineFittingAction` (lines 257-288).  In this typed
embedding the fitting mode is an enumeration, so the `default:` branch of
the source `switch` (which throws on an unrecognized mode) is unreachable. -/
def determineFittingAction (fittingMode : FittingMode)
    (currentSize availableSize : ℚ) : FittingAction :=
  match fittingMode with
  | .FITTING_NONE => .NONE
  | .FITTING_STRETCH =>
      if currentSize < availableSize then .APPLY_STRETCHING else .NONE
  | .FITTING_SHRINK =>
      if currentSize ≥ availableSize then .APPLY_SHRINKING else .NONE
  | .FITTING_BOTH =>
      if currentSize < availableSize then .APPLY_STRETCHING
      else if currentSize ≥ availableSize then .APPLY_SHRINKING
      else .NONE

/-- From the source `splitLines` loop (lines 122-150), specialized to the
primary axis: elements are represented by their ideal primary-axis sizes
(`sizes[i][a.size]`), `spacing` is `options.spacing[a.axis]` and `avail` is
`availableSpace[a.axis]`.  The recursion carries the current open line and
the running size; a line is closed either just before an element that would
overrun (`!allowOverrun`, resetting the running size to that element's
size), or just after the running size has overrun and more elements follow
(`allowOverrun`, resetting the running size to 0). -/
def splitLinesAux (allowOverrun : Bool) (spacing avail : ℚ) :
    List ℚ → List ℚ → ℚ → List (List ℚ)
  | [], cur, _ => [cur]
  | s :: rest, cur, running =>
    let running1 := if cur.length > 0 then running + spacing else running
    let running2 := running1 + s
    if allowOverrun = false ∧ running2 > avail ∧ cur ≠ [] then
      cur :: splitLinesAux allowOverrun spacing avail rest [s] s
    else
      let cur2 := cur ++ [s]
      if allowOverrun = true ∧ running2 > avail ∧ rest ≠ [] then
        cur2 :: splitLinesAux allowOverrun spacing avail rest [] 0
      else
        splitLinesAux allowOverrun spacing avail rest cur2 running2

/-- From the source `splitLines` (lines 116-153): all elements form a single
line when wrapping is disabled; otherwise accumulate with
`allowOverrun = (options[a.fitting] === FITTING_SHRINK)` (line 125). -/
def splitLines (wrap : Bool) (fitting : FittingMode) (spacing avail : ℚ)
    (sizes : List ℚ) : List (List ℚ) :=
  if wrap = false then [sizes]
  else splitLinesAux (fitting == FittingMode.FITTING_SHRINK) spacing avail
    sizes [] 0

/-- The primary-axis space a line occupies: element sizes plus inter-element
spacing (`calculateTotalSpace`, lines 290-295, applied to a single nonempty
line; the empty line occupies no space). -/
def lineTotal (spacing : ℚ) : List ℚ → ℚ
  | [] => 0
  | line => line.sum + spacing * ((line.length : ℚ) - 1)

/-- A JavaScript number as it occurs in max-size positions: a rational or
`+Infinity` (the `maxWidth`/`maxHeight` default). -/
inductive JN where
  | fin (q : ℚ)
  | inf
deriving DecidableEq

/-- Order test on possibly-infinite numbers (`a <= b`). -/
def JN.leB : JN → JN → Bool
  | _, .inf => true
  | .inf, .fin _ => false
  | .fin a, .fin b => a ≤ b

/-- JavaScript `Math.max` on possibly-infinite numbers. -/
def JN.jmax : JN → JN → JN
  | .inf, _ => .inf
  | _, .inf => .inf
  | .fin a, .fin b => .fin (max a b)

/-- JavaScript `Math.min` on possibly-infinite numbers. -/
def JN.jmin : JN → JN → JN
  | .inf, x => x
  | x, .inf => x
  | .fin a, .fin b => .fin (min a b)

/-- JavaScript `Math.min` of a finite number and a possibly-infinite one
(`Math.min(targetSize, maxSize)` in `stretchSizesToFitContainer`). -/
def jminQ (t : ℚ) : JN → ℚ
  | .fin m => min t m
  | .inf => t

/-- The per-element size record restricted to one axis, as consumed by the
fitting functions: the current (ideal) size `sizes[i][axis.size]`, the
element's `axis.maxSize` (possibly the `Infinity` default) and its
`axis.fittingProportion`. -/
structure FitSizeProps where
  size : ℚ
  maxSize : JN
  fittingProportion : ℚ
deriving DecidableEq

/-- From the source `getTraversalOrder` (lines 607-616, ascending by
`axis.maxSize` as used by `stretchSizesToFitContainer`): assign each record
its index, stably sort a copy, return the indices.  JavaScript's
`Array.prototype.sort` is stable, matching `mergeSort`. -/
def getTraversalOrder (items : List FitSizeProps) : List ℕ :=
  ((items.enum).mergeSort
    (fun a b => JN.leB a.2.maxSize b.2.maxSize)).map (fun x => x.1)

/-- From the source `getNormalizedValues` (lines 573-589) for the fitting
proportions: a zero sum falls back to equal distribution, otherwise each
value is divided by the sum. -/
def getNormalizedValues (items : List FitSizeProps) : List ℚ :=
  let sum := (items.map (fun it => it.fittingProportion)).sum
  if sum = 0 then items.map (fun _ => 1 / (items.length : ℚ))
  else items.map (fun it => it.fittingProportion / sum)

/-- From the source `createSumArray` (lines 630-639): suffix sums of the
values, taken along the traversal order, stored at the positions the order
designates (the source assumes a nonempty input). -/
def createSumArray (values : List ℚ) (order : List ℕ) : List ℚ :=
  let n := values.length
  let last := order.getD (n - 1) 0
  let init := (List.replicate n (0 : ℚ)).set last (values.getD last 0)
  (List.range (n - 1)).reverse.foldl
    (fun arr i =>
      let oi := order.getD i 0
      let oi1 := order.getD (i + 1) 0
      arr.set oi (arr.getD oi1 0 + values.getD oi 0)) init

/-- From the source `calculateAdjustment` (lines 374-383); `1e-5` is the
source's epsilon.  (When the remaining-proportion sum is exactly zero but
the proportion is not negligible, the source divides by zero, producing an
infinity; on `ℚ` the division yields 0 — that configuration is outside the
verified properties.) -/
def calculateAdjustment (index : ℕ) (remainingAdjustment : ℚ)
    (fittingProportions fittingProportionSums : List ℚ) : ℚ :=
  let proportion := fittingProportions.getD index 0
  let sumOfRemainingProportions := fittingProportionSums.getD index 0
  if |proportion| < 1 / 100000 ∧ |sumOfRemainingProportions| < 1 / 100000 then
    remainingAdjustment
  else
    remainingAdjustment * proportion / sumOfRemainingProportions

/-- One iteration of the source `stretchSizesToFitContainer` loop (lines
306-334): read the record at the next position of the traversal order,
compute the ideal increase from the remaining undershoot and the fitting
proportions, cap the resulting size at the record's max size
(`Math.min(targetSize, maxSize)`), and carry the unapplied part of the
increase forward. -/
def stretchStep (ascendingMaxSizeOrder : List ℕ)
    (fittingProportions fittingProportionSums : List ℚ)
    (st : List FitSizeProps × ℚ) (i : ℕ) : List FitSizeProps × ℚ :=
  let arr := st.1
  let remainingUndershoot := st.2
  let index := ascendingMaxSizeOrder.getD i 0
  let rec0 := arr.getD index ⟨0, .fin 0, 0⟩
  let targetIncrease := calculateAdjustment index remainingUndershoot
    fittingProportions fittingProportionSums
  let targetSize := rec0.size + targetIncrease
  let actualSize := jminQ targetSize rec0.maxSize
  let arr2 := arr.set index { rec0 with size := actualSize }
  let actualIncrease := max (targetSize - actualSize) 0
  let appliedIncrease := targetIncrease - actualIncrease
  (arr2, remainingUndershoot - appliedIncrease)

/-- From the source `stretchSizesToFitContainer` (lines 297-335): walk the
records in ascending max-size order, starting from the undershoot
`availableSpace[axis.axis] - idealRequiredSpace`, applying `stretchStep` to
each position. -/
def stretchSizesToFitContainer (sizesThisLine : List FitSizeProps)
    (idealRequiredSpace availSpace : ℚ) : List FitSizeProps :=
  let ascendingMaxSizeOrder := getTraversalOrder sizesThisLine
  let fittingProportions := getNormalizedValues sizesThisLine
  let fittingProportionSums :=
    createSumArray fittingProportions ascendingMaxSizeOrder
  ((List.range sizesThisLine.length).foldl
    (stretchStep ascendingMaxSizeOrder fittingProportions
      fittingProportionSums)
    (sizesThisLine, availSpace - idealRequiredSpace)).1

/-- A record's size respects its declared max size. -/
def withinMaxB (r : FitSizeProps) : Bool :=
  match r.maxSize with
  | .inf => true
  | .fin m => r.size ≤ m

/-- A raw property value as stored on a layout element or a layout-child
override component: JavaScript `null`, a finite number, or `Infinity`;
`undefined` is `Option.none` around this type. -/
inductive LNum where
  | null
  | fin (q : ℚ)
  | inf
deriving DecidableEq

/-- JavaScript `ToNumber` on the values that reach `Math.max` and `clamp` in
the size sanitization: `null` coerces to `0` (`undefined` never reaches
these call sites because `getProperty` replaces it with a default). -/
def LNum.toNumber : LNum → JN
  | .null => .fin 0
  | .fin q => .fin q
  | .inf => .inf

/-- The element size properties (the per-axis views of lines 8-28 name
these). -/
inductive LProp where
  | minWidth
  | minHeight
  | maxWidth
  | maxHeight
  | width
  | height
  | fitWidthProportion
  | fitHeightProportion
deriving DecidableEq

/-- From the source `PROPERTY_DEFAULTS` (lines 34-43). -/
def PROPERTY_DEFAULTS : LProp → LNum
  | .minWidth => .fin 0
  | .minHeight => .fin 0
  | .maxWidth => .inf
  | .maxHeight => .inf
  | .width => .null
  | .height => .null
  | .fitWidthProportion => .fin 0
  | .fitHeightProportion => .fin 0

/-- The optional `LayoutChildComponent` on an element's entity. -/
structure LayoutChild where
  enabled : Bool
  prop : LProp → Option LNum

/-- A layout element as read by `getProperty`: the optional layout-child
override and the element's own properties (`none` models `undefined`). -/
structure LayoutElement where
  layoutChild : Option LayoutChild
  prop : LProp → Option LNum

/-- From the source `getProperty` (lines 550-561): prefer an enabled
layout-child override that is neither `undefined` nor `null`; else the
element's own value when it is not `undefined` (a `null` is returned
as-is); else the global default. -/
def getProperty (element : LayoutElement) (propertyName : LProp) : LNum :=
  let fallback :=
    match element.prop propertyName with
    | some v => v
    | none => PROPERTY_DEFAULTS propertyName
  match element.layoutChild with
  | some lc =>
      if lc.enabled then
        match lc.prop propertyName with
        | some v => if v = .null then fallback else v
        | none => fallback
      else fallback
  | none => fallback

/-- From the source `clamp` (lines 563-565). -/
def clamp (value min max : JN) : JN :=
  JN.jmin (JN.jmax value min) max

/-- The record produced by `getElementSizeProperties` for one element; the
fitting proportions are read raw (no sanitization). -/
structure SizeRecord where
  minWidth : JN
  minHeight : JN
  maxWidth : JN
  maxHeight : JN
  width : JN
  height : JN
  fitWidthProportion : LNum
  fitHeightProportion : LNum
deriving DecidableEq

/-- From the source `getElementSizeProperties` (lines 517-544), loop body
for one element. -/
def getElementSizeProperty (element : LayoutElement) : SizeRecord :=
  let minWidth := JN.jmax (getProperty element .minWidth).toNumber (.fin 0)
  let minHeight := JN.jmax (getProperty element .minHeight).toNumber (.fin 0)
  let maxWidth := JN.jmax (getProperty element .maxWidth).toNumber minWidth
  let maxHeight := JN.jmax (getProperty element .maxHeight).toNumber minHeight
  let width := clamp (getProperty element .width).toNumber minWidth maxWidth
  let height :=
    clamp (getProperty element .height).toNumber minHeight maxHeight
  { minWidth := minWidth
    minHeight := minHeight
    maxWidth := maxWidth
    maxHeight := maxHeight
    width := width
    height := height
    fitWidthProportion := getProperty element .fitWidthProportion
    fitHeightProportion := getProperty element .fitHeightProportion }

/-- From the source `getElementSizeProperties` (lines 517-544). -/
def getElementSizeProperties (elements : List LayoutElement) :
    List SizeRecord :=
  elements.map getElementSizeProperty

end LayoutCalculator

/-- Fixture for the C10 witness: an element with a negative minWidth, a
maxHeight below its minHeight, a missing width (null default) and a null
fitHeightProportion. -/
def layoutFixtureElement : LayoutCalculator.LayoutElement :=
  ⟨none, fun p =>
    match p with
    | .minWidth => some (.fin (-5))
    | .maxWidth => some (.fin 3)
    | .minHeight => some (.fin 4)
    | .maxHeight => some (.fin 2)
    | .width => none
    | .height => some (.fin 10)
    | .fitWidthProportion => none
    | .fitHeightProportion => some .null⟩

/-- The record the sanitization produces for `layoutFixtureElement`. -/
def layoutFixtureRecord : LayoutCalculator.SizeRecord :=
  ⟨.fin 0, .fin 4, .fin 3, .fin 4, .fin 0, .fin 4, .fin 0, .null⟩

/-- Fixture for the C5 redistribution example: three elements of ideal size
10 with equal fit proportions; the first is capped at max size 11 while the
others can grow to 100. -/
def stretchFixture : List LayoutCalculator.FitSizeProps :=
  [⟨10, .fin 11, 1⟩, ⟨10, .fin 100, 1⟩, ⟨10, .fin 100, 1⟩]

namespace Component

theorem lookup_map_update_self (d : List (String × JSVal)) (name : String)
    (v : JSVal) (h : (d.lookup name).isSome) :
    (d.map (fun kv => if kv.1 = name then (kv.1, v) else kv)).lookup name
      = some v := by
  induction d with
  | nil => simp [List.lookup] at h
  | cons kv rest ih =>
    obtain ⟨k, w⟩ := kv
    by_cases hk : k = name
    · subst hk
      simp only [List.map_cons]
      simp [List.lookup]
    · simp only [List.map_cons, if_neg hk]
      have hk' : (name == k) = false := by simp [Ne.symm hk]
      simp only [List.lookup, hk'] at h ⊢
      exact ih h

theorem lookup_append_single_self (d : List (String × JSVal)) (name : String)
    (v : JSVal) (h : d.lookup name = none) :
    (d ++ [(name, v)]).lookup name = some v := by
  induction d with
  | nil => simp [List.lookup]
  | cons kv rest ih =>
    obtain ⟨k, w⟩ := kv
    by_cases hk : name = k
    · simp [List.lookup, hk] at h
    · have hk' : (name == k) = false := by simp [hk]
      simp only [List.lookup, hk'] at h
      simp only [List.cons_append, List.lookup, hk']
      exact ih h

theorem lookup_writeData_self (d : List (String × JSVal)) (name : String)
    (v : JSVal) : lookupData (writeData d name v) name = v := by
  unfold lookupData writeData
  by_cases h : (d.lookup name).isSome
  · simp [h, lookup_map_update_self d name v h]
  · have h0 : d.lookup name = none := by
      cases hl : d.lookup name with
      | none => rfl
      | some w => simp [hl] at h
    simp [h, lookup_append_single_self d name v h0]

theorem filter_isSetEv_hooks (e : Bool) (o n : JSVal) :
    (onSetEnabledEvents e o n).filter isSetEv = [] := by
  unfold onSetEnabledEvents
  split_ifs <;> simp [isSetEv]

theorem filter_isSetNamedEv_hooks (e : Bool) (o n : JSVal) (name : String) :
    (onSetEnabledEvents e o n).filter (isSetNamedEv name) = [] := by
  unfold onSetEnabledEvents
  split_ifs <;> simp [isSetNamedEv]

theorem count_enableHook_hooks (e : Bool) (o n : JSVal) :
    (onSetEnabledEvents e o n).count Ev.enableHook
      = if o ≠ n ∧ truthy n = true ∧ e = true then 1 else 0 := by
  unfold onSetEnabledEvents
  split_ifs with h1 h2 h3 h4 h5 h6 h7 <;> simp_all

theorem count_disableHook_hooks (e : Bool) (o n : JSVal) :
    (onSetEnabledEvents e o n).count Ev.disableHook
      = if o ≠ n ∧ truthy n = false ∧ e = true then 1 else 0 := by
  unfold onSetEnabledEvents
  split_ifs with h1 h2 h3 h4 h5 h6 h7 <;> simp_all

theorem setAccessor_eq (c : State) (d : List (String × JSVal))
    (h : c.data = some d) (name : String) (v : JSVal) :
    setAccessor c name v
      = some ({ c with data := some (writeData d name v) },
              assignEvents c d name v) := by
  unfold setAccessor assignEvents
  rw [h]

end Component

/-- Claim C1 (amended): for every schema-declared property `p` of a component
whose backing data is registered, assigning a value `v` to `p` fires exactly
one generic `set` event and exactly one `set_<p>` event, each carrying the
property name, the old value and `v` — including when `v` equals the
currently stored value (the generated setter performs no old/new equality
check before firing). -/
theorem claim_C1_amended (c : Component.State)
    (d : List (String × Component.JSVal)) (h : c.data = some d)
    (name : String) (v : Component.JSVal) :
    ∃ st evs, Component.setAccessor c name v = some (st, evs) ∧
      evs.filter Component.isSetEv
        = [Component.Ev.set name (Component.lookupData d name) v] ∧
      evs.filter (Component.isSetNamedEv name)
        = [Component.Ev.setNamed name (Component.lookupData d name) v] := by
  refine ⟨_, _, Component.setAccessor_eq c d h name v, ?_, ?_⟩
  · unfold Component.assignEvents
    rw [List.filter_append]
    split_ifs with hn
    · rw [Component.filter_isSetEv_hooks]
      simp [Component.isSetEv]
    · simp [Component.isSetEv]
  · unfold Component.assignEvents
    rw [List.filter_append]
    split_ifs with hn
    · rw [Component.filter_isSetNamedEv_hooks]
      simp [Component.isSetNamedEv]
    · simp [Component.isSetNamedEv]

/-- Claim C1 (counterexample): on a registered component whose stored value
for the schema property `"value"` is `3`, re-assigning the same value `3`
fires one `set` event and one `set_value` event; the claim as stated requires
zero events of each kind for a same-value write. -/
theorem claim_C1_counterexample :
    (Component.setAccessor ⟨some [("value", .num 3)], true⟩ "value"
        (.num 3)).map
      (fun r => ((r.2.filter Component.isSetEv).length,
                 (r.2.filter (Component.isSetNamedEv "value")).length))
      = some (1, 1) := by
  decide

/-- Claim C1 (witness): the amended theorem applied to a registered component
holding `("width", 1)`, assigning `2`. -/
theorem claim_C1_witness :
    (⟨some [("width", .num 1)], true⟩ : Component.State).data
        = some [("width", .num 1)] ∧
    (∃ st evs,
      Component.setAccessor ⟨some [("width", .num 1)], true⟩ "width" (.num 2)
          = some (st, evs) ∧
      evs.filter Component.isSetEv
        = [Component.Ev.set "width"
            (Component.lookupData [("width", .num 1)] "width") (.num 2)] ∧
      evs.filter (Component.isSetNamedEv "width")
        = [Component.Ev.setNamed "width"
            (Component.lookupData [("width", .num 1)] "width") (.num 2)]) :=
  ⟨rfl, claim_C1_amended ⟨some [("width", .num 1)], true⟩
    [("width", .num 1)] rfl "width" (.num 2)⟩

/-- Claim C2: on a registered component, a write of a boolean `b` to the
`enabled` property invokes `onEnable` exactly when the stored old value
differs from `b`, `b` is `true`, and the owning entity is enabled; likewise
`onDisable` exactly when the values differ, `b` is `false`, and the entity is
enabled; and a second write of the same value fires no hook at all, so
enabling twice without an intervening disable invokes `onEnable` at most
once, and no hook runs on a redundant write. -/
theorem claim_C2 (c : Component.State) (d : List (String × Component.JSVal))
    (h : c.data = some d) (b : Bool) :
    ∃ st evs, Component.setAccessor c "enabled" (.bool b) = some (st, evs) ∧
      evs.count Component.Ev.enableHook
        = (if Component.lookupData d "enabled" ≠ .bool b ∧ b = true
             ∧ c.entityEnabled = true then 1 else 0) ∧
      evs.count Component.Ev.disableHook
        = (if Component.lookupData d "enabled" ≠ .bool b ∧ b = false
             ∧ c.entityEnabled = true then 1 else 0) ∧
      ∀ st2 evs2,
        Component.setAccessor st "enabled" (.bool b) = some (st2, evs2) →
          evs2.count Component.Ev.enableHook = 0
          ∧ evs2.count Component.Ev.disableHook = 0 := by
  refine ⟨_, _, Component.setAccessor_eq c d h "enabled" (.bool b), ?_, ?_, ?_⟩
  · unfold Component.assignEvents
    rw [List.count_append, if_pos rfl, Component.count_enableHook_hooks]
    simp [Component.truthy]
  · unfold Component.assignEvents
    rw [List.count_append, if_pos rfl, Component.count_disableHook_hooks]
    simp [Component.truthy]
  · intro st2 evs2 h2
    have hd2 : ({ c with data := some (Component.writeData d "enabled" (.bool b)) }
        : Component.State).data = some (Component.writeData d "enabled" (.bool b)) := rfl
    rw [Component.setAccessor_eq _ _ hd2 "enabled" (.bool b),
      Option.some_inj] at h2
    have hevs : evs2 = Component.assignEvents _ (Component.writeData d "enabled" (.bool b))
        "enabled" (.bool b) := (congrArg Prod.snd h2).symm
    subst hevs
    unfold Component.assignEvents
    rw [Component.lookup_writeData_self]
    constructor <;>
      simp [Component.count_enableHook_hooks, Component.count_disableHook_hooks]

/-- Claim C2 (witness): a registered component with `enabled = false` on an
enabled entity, written with `true` twice. -/
theorem claim_C2_witness :
    (⟨some [("enabled", .bool false)], true⟩ : Component.State).data
        = some [("enabled", .bool false)] ∧
    (∃ st evs,
      Component.setAccessor ⟨some [("enabled", .bool false)], true⟩ "enabled"
          (.bool true) = some (st, evs) ∧
      evs.count Component.Ev.enableHook
        = (if Component.lookupData [("enabled", .bool false)] "enabled"
              ≠ .bool true ∧ true = true ∧
             (⟨some [("enabled", .bool false)], true⟩
               : Component.State).entityEnabled = true then 1 else 0) ∧
      evs.count Component.Ev.disableHook
        = (if Component.lookupData [("enabled", .bool false)] "enabled"
              ≠ .bool true ∧ true = false ∧
             (⟨some [("enabled", .bool false)], true⟩
               : Component.State).entityEnabled = true then 1 else 0) ∧
      ∀ st2 evs2,
        Component.setAccessor st "enabled" (.bool true) = some (st2, evs2) →
          evs2.count Component.Ev.enableHook = 0
          ∧ evs2.count Component.Ev.disableHook = 0) :=
  ⟨rfl, claim_C2 ⟨some [("enabled", .bool false)], true⟩
    [("enabled", .bool false)] rfl true⟩

/-- Claim C9: assigning to a ModelComponent's `model` property a `Model`
instance that is already owned by another component (flagged immutable) is
rejected: a diagnostic error is reported and the component's state — its
previous model and everything derived from it — is left unchanged. -/
theorem claim_C9 (c : ModelComponent.State) (m : ModelComponent.Model)
    (him : m.immutable = true) (hne : c._model ≠ some m) :
    ModelComponent.setModel c (some m) = (c, true) := by
  unfold ModelComponent.setModel
  rw [if_neg hne, if_pos]
  exact him

/-- Claim C9 (witness): a component holding model 1 is assigned model 2 which
is flagged immutable; the assignment is rejected with a diagnostic. -/
theorem claim_C9_witness :
    (⟨2, true⟩ : ModelComponent.Model).immutable = true ∧
    (⟨some ⟨1, true⟩, true, true, true, true⟩ : ModelComponent.State)._model
      ≠ some ⟨2, true⟩ ∧
    ModelComponent.setModel ⟨some ⟨1, true⟩, true, true, true, true⟩
      (some ⟨2, true⟩) = (⟨some ⟨1, true⟩, true, true, true, true⟩, true) :=
  ⟨rfl, by decide,
    claim_C9 ⟨some ⟨1, true⟩, true, true, true, true⟩ ⟨2, true⟩ rfl
      (by decide)⟩

namespace AnimComponent

theorem lookup_assocUpdate_self {α : Type} (l : List (String × α))
    (k : String) (f : α → α) :
    (assocUpdate l k f).lookup k = (l.lookup k).map f := by
  induction l with
  | nil => simp [assocUpdate, List.lookup]
  | cons kv rest ih =>
    obtain ⟨k0, v⟩ := kv
    by_cases hk : k0 = k
    · subst hk
      simp [assocUpdate, List.lookup]
    · have hk' : (k == k0) = false := by simp [Ne.symm hk]
      simp [assocUpdate, List.lookup, hk, hk', ih]

theorem getParameterValue_mismatch (c : State) (name : String)
    (type : AnimParamType)
    (h : (c._parameters.lookup name).map AnimParam.type ≠ some type) :
    getParameterValue c name type = (none, true) := by
  unfold getParameterValue
  cases hl : c._parameters.lookup name with
  | none => rfl
  | some p =>
    rw [hl] at h
    have hp : p.type ≠ type := by simpa using h
    simp [hp]

theorem setParameterValue_mismatch (c : State) (name : String)
    (type : AnimParamType) (v : PVal)
    (h : (c._parameters.lookup name).map AnimParam.type ≠ some type) :
    setParameterValue c name type v = (c, true) := by
  unfold setParameterValue
  cases hl : c._parameters.lookup name with
  | none => rfl
  | some p =>
    rw [hl] at h
    have hp : p.type ≠ type := by simpa using h
    simp [hp]

theorem update_consumed_single (c : State) (dt : ℚ) (t : String)
    (hc : c._consumedTriggers = [t])
    (ht : (c._parameters.lookup t).isSome) :
    update c dt = some { c with
      _layers := c._layers.map
        (fun l : Layer => l.update c._parameters (dt * c._speed)),
      _parameters := assocUpdate c._parameters t
        (fun p => { p with value := .bl false }),
      _consumedTriggers := [] } := by
  unfold update
  simp [hc, ht]

theorem update_consumed_empty (c : State) (dt : ℚ)
    (hc : c._consumedTriggers = []) :
    update c dt = some { c with
      _layers := c._layers.map
        (fun l : Layer => l.update c._parameters (dt * c._speed)),
      _consumedTriggers := [] } := by
  unfold update
  simp [hc]

end AnimComponent

/-- Claim C3: on an AnimComponent whose parameter `t` is a trigger (and with
no trigger consumption pending), `setTrigger t (singleFrame := true)`
followed by one `update dt` leaves `t` with value `false` and an empty
consumed-triggers set; every layer's update within that same call still
observed the parameter map with `t` set to `true` (the reset happens only
after all layers have been advanced); and a second `update` without another
`setTrigger` succeeds and changes no parameter further. -/
theorem claim_C3 (c : AnimComponent.State) (t : String)
    (p : AnimComponent.AnimParam) (dt : ℚ)
    (hp : c._parameters.lookup t = some p)
    (htype : p.type = AnimComponent.AnimParamType.trigger)
    (hcons : c._consumedTriggers = []) :
    ∃ c2, AnimComponent.update (AnimComponent.setTrigger c t true).1 dt
        = some c2 ∧
      c2._parameters.lookup t = some { p with value := .bl false } ∧
      c2._consumedTriggers = [] ∧
      (∀ l ∈ c2._layers,
        l.observedParams.lookup t = some { p with value := .bl true }) ∧
      ∃ c3, AnimComponent.update c2 dt = some c3 ∧
        c3._parameters = c2._parameters ∧ c3._consumedTriggers = [] := by
  have hset : (AnimComponent.setTrigger c t true).1
      = { c with
            _parameters := AnimComponent.assocUpdate c._parameters t
              (fun q => { q with value := .bl true }),
            _consumedTriggers := [t] } := by
    unfold AnimComponent.setTrigger AnimComponent.setParameterValue
    rw [hp]
    simp [htype, hcons, AnimComponent.setAdd]
  have hlook1 : (AnimComponent.assocUpdate c._parameters t
      (fun q => { q with value := .bl true })).lookup t
        = some { p with value := .bl true } := by
    rw [AnimComponent.lookup_assocUpdate_self, hp]
    rfl
  rw [hset]
  rw [AnimComponent.update_consumed_single _ dt t rfl (by rw [hlook1]; rfl)]
  refine ⟨_, rfl, ?_, rfl, ?_, ?_⟩
  · show (AnimComponent.assocUpdate _ t _).lookup t = _
    rw [AnimComponent.lookup_assocUpdate_self, hlook1]
    rfl
  · intro l hl
    simp only [List.mem_map] at hl
    obtain ⟨l0, _, rfl⟩ := hl
    simpa [AnimComponent.Layer.update] using hlook1
  · rw [AnimComponent.update_consumed_empty _ dt rfl]
    exact ⟨_, rfl, rfl, rfl⟩

/-- Claim C3 (witness): a component with one trigger parameter `"jump"` and
one layer, after `setTrigger "jump" true` and two updates with `dt = 2`. -/
theorem claim_C3_witness :
    (({ _parameters := [("jump", ⟨.trigger, .bl false⟩)],
        _layers := [⟨"Base", ["START"], 0, []⟩] }
      : AnimComponent.State)._parameters.lookup "jump"
        = some ⟨.trigger, .bl false⟩) ∧
    (AnimComponent.AnimParam.mk .trigger (.bl false)).type
        = AnimComponent.AnimParamType.trigger ∧
    (({ _parameters := [("jump", ⟨.trigger, .bl false⟩)],
        _layers := [⟨"Base", ["START"], 0, []⟩] }
      : AnimComponent.State)._consumedTriggers = []) ∧
    (∃ c2, AnimComponent.update
        (AnimComponent.setTrigger
          ({ _parameters := [("jump", ⟨.trigger, .bl false⟩)],
             _layers := [⟨"Base", ["START"], 0, []⟩] }
            : AnimComponent.State) "jump" true).1 2 = some c2 ∧
      c2._parameters.lookup "jump"
        = some { AnimComponent.AnimParam.mk .trigger (.bl false) with
                   value := .bl false } ∧
      c2._consumedTriggers = [] ∧
      (∀ l ∈ c2._layers,
        l.observedParams.lookup "jump"
          = some { AnimComponent.AnimParam.mk .trigger (.bl false) with
                     value := .bl true }) ∧
      ∃ c3, AnimComponent.update c2 2 = some c3 ∧
        c3._parameters = c2._parameters ∧ c3._consumedTriggers = []) :=
  ⟨rfl, rfl, rfl,
    claim_C3 _ "jump" ⟨.trigger, .bl false⟩ 2 rfl rfl rfl⟩

/-- Claim C6: on a freshly constructed AnimComponent, `loadStateGraph` with a
graph containing one layer whose states are `"START"` and exactly one other,
non-control, state `s` produces an animation-asset manifest with exactly one
entry, keyed `"<layerName>:<s>"` (the control state `START` is excluded),
whose asset field is initially null. -/
theorem claim_C6 (layerName s : String)
    (hs : s ∉ AnimComponent.ANIM_CONTROL_STATES) :
    (AnimComponent.loadStateGraph AnimComponent.freshAnim
        ⟨[⟨layerName, [⟨"START", 1⟩, ⟨s, 1⟩], []⟩], []⟩)._animationAssets
      = [(layerName ++ ":" ++ s, none)] := by
  unfold AnimComponent.loadStateGraph AnimComponent.setupAnimationAssets
    AnimComponent.loadAnimationAssets AnimComponent._addLayer
    AnimComponent.freshAnim
  have hstart : "START" ∈ AnimComponent.ANIM_CONTROL_STATES := by
    unfold AnimComponent.ANIM_CONTROL_STATES
    simp
  simp [hstart, hs, AnimComponent.assocWrite, List.lookup]

/-- Claim C6 (witness): layer `"Base"` with states `"START"` and `"Walk"`. -/
theorem claim_C6_witness :
    "Walk" ∉ AnimComponent.ANIM_CONTROL_STATES ∧
    (AnimComponent.loadStateGraph AnimComponent.freshAnim
        ⟨[⟨"Base", [⟨"START", 1⟩, ⟨"Walk", 1⟩], []⟩], []⟩)._animationAssets
      = [("Base" ++ ":" ++ "Walk", none)] :=
  ⟨by decide, claim_C6 "Base" "Walk" (by decide)⟩

/-- Claim C7: setting `stateGraphAsset` to null (which runs
`removeStateGraph`) resets the component: the layers list, layer-index map,
parameter map and animation-asset manifest are all empty, the state graph
and state-graph-asset references are null, and playing is false. -/
theorem claim_C7 (c : AnimComponent.State) :
    (AnimComponent.setStateGraphAssetNull c)._layers = [] ∧
    (AnimComponent.setStateGraphAssetNull c)._layerIndices = [] ∧
    (AnimComponent.setStateGraphAssetNull c)._parameters = [] ∧
    (AnimComponent.setStateGraphAssetNull c)._animationAssets = [] ∧
    (AnimComponent.setStateGraphAssetNull c)._stateGraph = none ∧
    (AnimComponent.setStateGraphAssetNull c)._stateGraphAsset = none ∧
    (AnimComponent.setStateGraphAssetNull c)._playing = false :=
  ⟨rfl, rfl, rfl, rfl, rfl, rfl, rfl⟩

/-- Claim C8: for every typed parameter accessor, when no parameter of the
given name exists or its declared type differs from the requested type, a
diagnostic is logged, the operation is total (never throws), the set leaves
the parameter map unchanged, and the get returns no value.  (For
`setTrigger` with `singleFrame = true` the name is still recorded in the
consumed-triggers set, which is separate from the parameter map.) -/
theorem claim_C8 (c : AnimComponent.State) (name : String) :
    ((c._parameters.lookup name).map AnimComponent.AnimParam.type
        ≠ some AnimComponent.AnimParamType.float →
      AnimComponent.getFloat c name = (none, true) ∧
      ∀ v, AnimComponent.setFloat c name v = (c, true)) ∧
    ((c._parameters.lookup name).map AnimComponent.AnimParam.type
        ≠ some AnimComponent.AnimParamType.integer →
      AnimComponent.getInteger c name = (none, true) ∧
      ∀ v, AnimComponent.setInteger c name v = (c, true)) ∧
    ((c._parameters.lookup name).map AnimComponent.AnimParam.type
        ≠ some AnimComponent.AnimParamType.boolean →
      AnimComponent.getBoolean c name = (none, true) ∧
      ∀ v, AnimComponent.setBoolean c name v = (c, true)) ∧
    ((c._parameters.lookup name).map AnimComponent.AnimParam.type
        ≠ some AnimComponent.AnimParamType.trigger →
      AnimComponent.getTrigger c name = (none, true) ∧
      AnimComponent.resetTrigger c name = (c, true) ∧
      ∀ sf, (AnimComponent.setTrigger c name sf).1._parameters
              = c._parameters
            ∧ (AnimComponent.setTrigger c name sf).2 = true) := by
  refine ⟨fun h => ⟨?_, ?_⟩, fun h => ⟨?_, ?_⟩, fun h => ⟨?_, ?_⟩,
    fun h => ⟨?_, ?_, ?_⟩⟩
  · exact AnimComponent.getParameterValue_mismatch c name _ h
  · intro v
    exact AnimComponent.setParameterValue_mismatch c name _ _ h
  · exact AnimComponent.getParameterValue_mismatch c name _ h
  · intro v
    unfold AnimComponent.setInteger
    split_ifs
    · exact AnimComponent.setParameterValue_mismatch c name _ _ h
    · rfl
  · exact AnimComponent.getParameterValue_mismatch c name _ h
  · intro v
    exact AnimComponent.setParameterValue_mismatch c name _ _ h
  · exact AnimComponent.getParameterValue_mismatch c name _ h
  · exact AnimComponent.setParameterValue_mismatch c name _ _ h
  · intro sf
    unfold AnimComponent.setTrigger
    rw [AnimComponent.setParameterValue_mismatch c name _ _ h]
    cases sf <;> simp

/-- Claim C8 (witness): a component with a single float parameter `"speed"`,
accessed under the name `"missing"`, which exists for no type. -/
theorem claim_C8_witness :
    ((({ _parameters := [("speed", ⟨.float, .num 1⟩)] }
        : AnimComponent.State)._parameters.lookup "missing").map
          AnimComponent.AnimParam.type
        ≠ some AnimComponent.AnimParamType.float) ∧
    (AnimComponent.getFloat
        ({ _parameters := [("speed", ⟨.float, .num 1⟩)] }
          : AnimComponent.State) "missing" = (none, true) ∧
      ∀ v, AnimComponent.setFloat
        ({ _parameters := [("speed", ⟨.float, .num 1⟩)] }
          : AnimComponent.State) "missing" v
        = (({ _parameters := [("speed", ⟨.float, .num 1⟩)] }
            : AnimComponent.State), true)) ∧
    ((({ _parameters := [("speed", ⟨.float, .num 1⟩)] }
        : AnimComponent.State)._parameters.lookup "missing").map
          AnimComponent.AnimParam.type
        ≠ some AnimComponent.AnimParamType.trigger) ∧
    (AnimComponent.getTrigger
        ({ _parameters := [("speed", ⟨.float, .num 1⟩)] }
          : AnimComponent.State) "missing" = (none, true) ∧
      AnimComponent.resetTrigger
        ({ _parameters := [("speed", ⟨.float, .num 1⟩)] }
          : AnimComponent.State) "missing"
        = (({ _parameters := [("speed", ⟨.float, .num 1⟩)] }
            : AnimComponent.State), true) ∧
      ∀ sf, (AnimComponent.setTrigger
              ({ _parameters := [("speed", ⟨.float, .num 1⟩)] }
                : AnimComponent.State) "missing" sf).1._parameters
              = ({ _parameters := [("speed", ⟨.float, .num 1⟩)] }
                  : AnimComponent.State)._parameters
            ∧ (AnimComponent.setTrigger
                ({ _parameters := [("speed", ⟨.float, .num 1⟩)] }
                  : AnimComponent.State) "missing" sf).2 = true) :=
  ⟨by decide,
    (claim_C8 ({ _parameters := [("speed", ⟨.float, .num 1⟩)] }
      : AnimComponent.State) "missing").1 (by decide),
    by decide,
    (claim_C8 ({ _parameters := [("speed", ⟨.float, .num 1⟩)] }
      : AnimComponent.State) "missing").2.2.2 (by decide)⟩

namespace LayoutCalculator

theorem lineTotal_concat (spacing : ℚ) (cur : List ℚ) (s : ℚ) :
    lineTotal spacing (cur ++ [s])
      = (if cur.length > 0 then lineTotal spacing cur + spacing
         else lineTotal spacing cur) + s := by
  cases cur with
  | nil => simp [lineTotal]
  | cons c0 rest =>
    show lineTotal spacing ((c0 :: rest) ++ [s]) = _
    have hne : (c0 :: rest) ++ [s] ≠ [] := by simp
    have h1 : lineTotal spacing ((c0 :: rest) ++ [s])
        = ((c0 :: rest) ++ [s]).sum
          + spacing * ((((c0 :: rest) ++ [s]).length : ℚ) - 1) := by
      rfl
    have h2 : lineTotal spacing (c0 :: rest)
        = (c0 :: rest).sum + spacing * (((c0 :: rest).length : ℚ) - 1) := by
      rfl
    rw [h1, h2]
    simp only [List.sum_append, List.length_append, List.sum_cons,
      List.sum_nil, List.length_cons, List.length_nil]
    push_cast
    simp only [List.length_cons, Nat.add_eq, if_pos (Nat.succ_pos rest.length)]
    ring

theorem splitLinesAux_shape (ao : Bool) (sp avail : ℚ) :
    ∀ (sizes cur : List ℚ) (running : ℚ),
      ∃ t ls, splitLinesAux ao sp avail sizes cur running = (cur ++ t) :: ls := by
  intro sizes
  induction sizes with
  | nil =>
    intro cur running
    exact ⟨[], [], by simp [splitLinesAux]⟩
  | cons s rest ih =>
    intro cur running
    simp only [splitLinesAux]
    by_cases hA : ao = false
        ∧ (if cur.length > 0 then running + sp else running) + s > avail
        ∧ cur ≠ []
    · rw [if_pos hA]
      exact ⟨[], splitLinesAux ao sp avail rest [s] s, by simp⟩
    · rw [if_neg hA]
      by_cases hB : ao = true
          ∧ (if cur.length > 0 then running + sp else running) + s > avail
          ∧ rest ≠ []
      · rw [if_pos hB]
        exact ⟨[s], splitLinesAux ao sp avail rest [] 0, rfl⟩
      · rw [if_neg hB]
        obtain ⟨t, ls, ht⟩ := ih (cur ++ [s])
          ((if cur.length > 0 then running + sp else running) + s)
        exact ⟨[s] ++ t, ls, by rw [ht, List.append_assoc]⟩

theorem splitLinesAux_no_overrun_bounded (sp avail : ℚ) :
    ∀ (sizes cur : List ℚ) (running : ℚ),
      running = lineTotal sp cur →
      (2 ≤ cur.length → running ≤ avail) →
      ∀ L ∈ splitLinesAux false sp avail sizes cur running,
        2 ≤ L.length → lineTotal sp L ≤ avail := by
  intro sizes
  induction sizes with
  | nil =>
    intro cur running hrun hcur L hL h2
    simp only [splitLinesAux, List.mem_singleton] at hL
    subst hL
    rw [← hrun]
    exact hcur h2
  | cons s rest ih =>
    intro cur running hrun hcur L hL
    simp only [splitLinesAux] at hL
    by_cases hbr :
        (if cur.length > 0 then running + sp else running) + s > avail
          ∧ cur ≠ []
    · rw [if_pos ⟨by trivial, hbr.1, hbr.2⟩] at hL
      rcases List.mem_cons.mp hL with hLc | hLm
      · subst hLc
        intro h2
        rw [← hrun]
        exact hcur h2
      · exact ih [s] s (by simp [lineTotal])
          (by intro h2; simp at h2) L hLm
    · rw [if_neg (fun hc => hbr ⟨hc.2.1, hc.2.2⟩)] at hL
      rw [if_neg (fun hc => by simpa using hc.1)] at hL
      refine ih (cur ++ [s])
        ((if cur.length > 0 then running + sp else running) + s) ?_ ?_ L hL
      · rw [lineTotal_concat, ← hrun]
      · intro h2
        by_cases hc : cur = []
        · exfalso
          rw [hc] at h2
          simp at h2
        · have hgt : ¬ ((if cur.length > 0 then running + sp else running) + s
              > avail) := fun hgt => hbr ⟨hgt, hc⟩
          linarith

theorem splitLinesAux_no_overrun_maximal (sp avail : ℚ) :
    ∀ (sizes cur : List ℚ) (running : ℚ),
      running = lineTotal sp cur →
      ∀ i, i + 1 < (splitLinesAux false sp avail sizes cur running).length →
        ∃ x t2,
          (splitLinesAux false sp avail sizes cur running).getD (i + 1) []
            = x :: t2 ∧
          avail < lineTotal sp
            ((splitLinesAux false sp avail sizes cur running).getD i [])
            + sp + x := by
  intro sizes
  induction sizes with
  | nil =>
    intro cur running hrun i h1
    simp [splitLinesAux] at h1
  | cons s rest ih =>
    intro cur running hrun i h1
    simp only [splitLinesAux] at h1 ⊢
    by_cases hbr :
        (if cur.length > 0 then running + sp else running) + s > avail
          ∧ cur ≠ []
    · rw [if_pos ⟨by trivial, hbr.1, hbr.2⟩] at h1 ⊢
      cases i with
      | zero =>
        obtain ⟨t, ls, hshape⟩ := splitLinesAux_shape false sp avail rest [s] s
        refine ⟨s, t, ?_, ?_⟩
        · rw [List.getD_cons_succ, hshape]
          simp
        · rw [List.getD_cons_zero, ← hrun]
          have hlen : cur.length > 0 := List.length_pos.mpr hbr.2
          have hb1 := hbr.1
          rw [if_pos hlen] at hb1
          linarith
      | succ j =>
        rw [List.getD_cons_succ, List.getD_cons_succ]
        apply ih [s] s (by simp [lineTotal]) j
        simp only [List.length_cons] at h1
        omega
    · rw [if_neg (fun hc => hbr ⟨hc.2.1, hc.2.2⟩),
        if_neg (fun hc => by simpa using hc.1)] at h1 ⊢
      exact ih (cur ++ [s]) _ (by rw [lineTotal_concat, ← hrun]) i h1

theorem splitLinesAux_overrun_adjacent (sp avail : ℚ) (havail : 0 ≤ avail) :
    ∀ (sizes cur : List ℚ) (running : ℚ),
      running = lineTotal sp cur →
      running ≤ avail →
      ∀ i, i + 1 < (splitLinesAux true sp avail sizes cur running).length →
        avail < lineTotal sp
            ((splitLinesAux true sp avail sizes cur running).getD i []) ∧
        lineTotal sp
            (((splitLinesAux true sp avail sizes cur running).getD i []
              ).dropLast) ≤ avail := by
  intro sizes
  induction sizes with
  | nil =>
    intro cur running hrun hle i h1
    simp [splitLinesAux] at h1
  | cons s rest ih =>
    intro cur running hrun hle i h1
    simp only [splitLinesAux] at h1 ⊢
    rw [if_neg (fun hc => by simpa using hc.1)] at h1 ⊢
    by_cases hbr :
        (if cur.length > 0 then running + sp else running) + s > avail
          ∧ rest ≠ []
    · rw [if_pos ⟨by trivial, hbr.1, hbr.2⟩] at h1 ⊢
      cases i with
      | zero =>
        rw [List.getD_cons_zero]
        constructor
        · rw [lineTotal_concat, ← hrun]
          exact hbr.1
        · rw [List.dropLast_concat, ← hrun]
          exact hle
      | succ j =>
        rw [List.getD_cons_succ]
        apply ih [] 0 rfl havail j
        simp only [List.length_cons] at h1
        omega
    · rw [if_neg (fun hc => hbr ⟨hc.2.1, hc.2.2⟩)] at h1 ⊢
      by_cases hrest : rest = []
      · subst hrest
        simp [splitLinesAux] at h1
      · have hle2 : (if cur.length > 0 then running + sp else running) + s
            ≤ avail := by
          by_contra hgt
          exact hbr ⟨lt_of_not_le hgt, hrest⟩
        exact ih (cur ++ [s]) _ (by rw [lineTotal_concat, ← hrun]) hle2 i h1

theorem splitLines_not_shrink (f : FittingMode)
    (hf : f ≠ FittingMode.FITTING_SHRINK) (sp avail : ℚ) (sizes : List ℚ) :
    splitLines true f sp avail sizes
      = splitLinesAux false sp avail sizes [] 0 := by
  unfold splitLines
  rw [if_neg (by simp)]
  have : (f == FittingMode.FITTING_SHRINK) = false := by
    simpa using hf
  rw [this]

theorem splitLines_shrink (sp avail : ℚ) (sizes : List ℚ) :
    splitLines true FittingMode.FITTING_SHRINK sp avail sizes
      = splitLinesAux true sp avail sizes [] 0 := by
  unfold splitLines
  rw [if_neg (by simp)]
  rfl

theorem withinMaxB_set_step (rec0 : FitSizeProps) (t : ℚ) :
    withinMaxB { rec0 with size := jminQ t rec0.maxSize } = true := by
  cases hm : rec0.maxSize with
  | inf => simp [withinMaxB, hm]
  | fin m => simp [withinMaxB, jminQ, hm]

theorem JN.leB_jmax_right (a b : JN) : JN.leB b (JN.jmax a b) = true := by
  cases a <;> cases b <;> simp [JN.leB, JN.jmax, le_max_right]

theorem JN.leB_jmin_right (a b : JN) : JN.leB (JN.jmin a b) b = true := by
  cases a <;> cases b <;> simp [JN.leB, JN.jmin, min_le_right]

theorem JN.leB_jmin_both {c a b : JN} (h1 : JN.leB c a = true)
    (h2 : JN.leB c b = true) : JN.leB c (JN.jmin a b) = true := by
  cases c <;> cases a <;> cases b <;>
    simp_all [JN.leB, JN.jmin, le_min_iff]

end LayoutCalculator

/-- Claim C10: in every calculateLayout call, the effective size record
computed for each included element satisfies minWidth ≥ 0, minHeight ≥ 0,
maxWidth ≥ minWidth, maxHeight ≥ minHeight, and the ideal width and height
are clamped into [min, max] — for all raw input properties, including
negative minima, maxima below minima, and missing/null values resolved
through the layout-child override chain and the global defaults. -/
theorem claim_C10 (elements : List LayoutCalculator.LayoutElement)
    (r : LayoutCalculator.SizeRecord)
    (hr : r ∈ LayoutCalculator.getElementSizeProperties elements) :
    LayoutCalculator.JN.leB (.fin 0) r.minWidth = true ∧
    LayoutCalculator.JN.leB (.fin 0) r.minHeight = true ∧
    LayoutCalculator.JN.leB r.minWidth r.maxWidth = true ∧
    LayoutCalculator.JN.leB r.minHeight r.maxHeight = true ∧
    LayoutCalculator.JN.leB r.minWidth r.width = true ∧
    LayoutCalculator.JN.leB r.width r.maxWidth = true ∧
    LayoutCalculator.JN.leB r.minHeight r.height = true ∧
    LayoutCalculator.JN.leB r.height r.maxHeight = true := by
  unfold LayoutCalculator.getElementSizeProperties at hr
  rw [List.mem_map] at hr
  obtain ⟨e, _, rfl⟩ := hr
  unfold LayoutCalculator.getElementSizeProperty
  refine ⟨?_, ?_, ?_, ?_, ?_, ?_, ?_, ?_⟩
  · exact LayoutCalculator.JN.leB_jmax_right _ _
  · exact LayoutCalculator.JN.leB_jmax_right _ _
  · exact LayoutCalculator.JN.leB_jmax_right _ _
  · exact LayoutCalculator.JN.leB_jmax_right _ _
  · exact LayoutCalculator.JN.leB_jmin_both
      (LayoutCalculator.JN.leB_jmax_right _ _)
      (LayoutCalculator.JN.leB_jmax_right _ _)
  · exact LayoutCalculator.JN.leB_jmin_right _ _
  · exact LayoutCalculator.JN.leB_jmin_both
      (LayoutCalculator.JN.leB_jmax_right _ _)
      (LayoutCalculator.JN.leB_jmax_right _ _)
  · exact LayoutCalculator.JN.leB_jmin_right _ _

/-- Claim C10 (witness): the invariants hold for the record computed from
the fixture element. -/
theorem claim_C10_witness :
    (layoutFixtureRecord
      ∈ LayoutCalculator.getElementSizeProperties [layoutFixtureElement]) ∧
    (LayoutCalculator.JN.leB (.fin 0) layoutFixtureRecord.minWidth = true ∧
     LayoutCalculator.JN.leB (.fin 0) layoutFixtureRecord.minHeight = true ∧
     LayoutCalculator.JN.leB layoutFixtureRecord.minWidth
       layoutFixtureRecord.maxWidth = true ∧
     LayoutCalculator.JN.leB layoutFixtureRecord.minHeight
       layoutFixtureRecord.maxHeight = true ∧
     LayoutCalculator.JN.leB layoutFixtureRecord.minWidth
       layoutFixtureRecord.width = true ∧
     LayoutCalculator.JN.leB layoutFixtureRecord.width
       layoutFixtureRecord.maxWidth = true ∧
     LayoutCalculator.JN.leB layoutFixtureRecord.minHeight
       layoutFixtureRecord.height = true ∧
     LayoutCalculator.JN.leB layoutFixtureRecord.height
       layoutFixtureRecord.maxHeight = true) :=
  ⟨by decide, claim_C10 [layoutFixtureElement] layoutFixtureRecord (by decide)⟩

/-- Claim C4: with wrapping enabled, `splitLines` accumulates ideal
primary-axis sizes plus inter-element spacing.  Under NONE, STRETCH and BOTH
(all modes other than SHRINK): (a) no line of two or more elements exceeds
the available space — in particular a cumulative size exactly equal to the
available space does not start a new line — and (b) every realized break is
forced: appending the first element of a line to its predecessor line would
have strictly exceeded the available space.  Under SHRINK: every non-final
line strictly exceeds the available space while that same line without its
last element does not — the break happens just after overrunning. -/
theorem claim_C4 :
    (∀ (f : LayoutCalculator.FittingMode) (sp avail : ℚ) (sizes : List ℚ),
        f ≠ LayoutCalculator.FittingMode.FITTING_SHRINK →
        (∀ L ∈ LayoutCalculator.splitLines true f sp avail sizes,
          2 ≤ L.length → LayoutCalculator.lineTotal sp L ≤ avail) ∧
        (∀ i, i + 1
            < (LayoutCalculator.splitLines true f sp avail sizes).length →
          ∃ x t2,
            (LayoutCalculator.splitLines true f sp avail sizes).getD (i + 1) []
              = x :: t2 ∧
            avail < LayoutCalculator.lineTotal sp
              ((LayoutCalculator.splitLines true f sp avail sizes).getD i [])
              + sp + x)) ∧
    (∀ (sp avail : ℚ) (sizes : List ℚ), 0 ≤ avail →
        ∀ i, i + 1 < (LayoutCalculator.splitLines true
            LayoutCalculator.FittingMode.FITTING_SHRINK sp avail
            sizes).length →
          avail < LayoutCalculator.lineTotal sp
              ((LayoutCalculator.splitLines true
                LayoutCalculator.FittingMode.FITTING_SHRINK sp avail
                sizes).getD i []) ∧
          LayoutCalculator.lineTotal sp
              (((LayoutCalculator.splitLines true
                LayoutCalculator.FittingMode.FITTING_SHRINK sp avail
                sizes).getD i []).dropLast) ≤ avail) := by
  constructor
  · intro f sp avail sizes hf
    rw [LayoutCalculator.splitLines_not_shrink f hf]
    constructor
    · exact LayoutCalculator.splitLinesAux_no_overrun_bounded sp avail
        sizes [] 0 rfl (fun h => absurd h (by simp))
    · exact LayoutCalculator.splitLinesAux_no_overrun_maximal sp avail
        sizes [] 0 rfl
  · intro sp avail sizes havail
    rw [LayoutCalculator.splitLines_shrink]
    exact LayoutCalculator.splitLinesAux_overrun_adjacent sp avail havail
      sizes [] 0 rfl havail

/-- Claim C4 (witness): under STRETCH with spacing 0 and 10 units available,
`[6, 6]` splits at the forced break (6 + 6 > 10, the second line starts with
the overflowing element); under SHRINK, `[6, 6, 1]` keeps `[6, 6]` on the
first line (break just after overrunning) with its prefix `[6]` within
bounds. -/
theorem claim_C4_witness :
    (LayoutCalculator.FittingMode.FITTING_STRETCH
      ≠ LayoutCalculator.FittingMode.FITTING_SHRINK) ∧
    ((0 : ℕ) + 1 < (LayoutCalculator.splitLines true
      LayoutCalculator.FittingMode.FITTING_STRETCH 0 10 [6, 6]).length) ∧
    (∃ x t2,
      (LayoutCalculator.splitLines true
        LayoutCalculator.FittingMode.FITTING_STRETCH 0 10 [6, 6]).getD
          (0 + 1) [] = x :: t2 ∧
      (10 : ℚ) < LayoutCalculator.lineTotal 0
        ((LayoutCalculator.splitLines true
          LayoutCalculator.FittingMode.FITTING_STRETCH 0 10 [6, 6]).getD 0 [])
        + 0 + x) ∧
    ((0 : ℚ) ≤ 10) ∧
    ((0 : ℕ) + 1 < (LayoutCalculator.splitLines true
      LayoutCalculator.FittingMode.FITTING_SHRINK 0 10 [6, 6, 1]).length) ∧
    ((10 : ℚ) < LayoutCalculator.lineTotal 0
        ((LayoutCalculator.splitLines true
          LayoutCalculator.FittingMode.FITTING_SHRINK 0 10 [6, 6, 1]).getD
            0 []) ∧
      LayoutCalculator.lineTotal 0
        (((LayoutCalculator.splitLines true
          LayoutCalculator.FittingMode.FITTING_SHRINK 0 10 [6, 6, 1]).getD
            0 []).dropLast) ≤ 10) := by
  have hlen1 : (0 : ℕ) + 1 < (LayoutCalculator.splitLines true
      LayoutCalculator.FittingMode.FITTING_STRETCH 0 10 [6, 6]).length := by
    rw [LayoutCalculator.splitLines_not_shrink _ (by decide)]
    norm_num [LayoutCalculator.splitLinesAux]
  have hlen2 : (0 : ℕ) + 1 < (LayoutCalculator.splitLines true
      LayoutCalculator.FittingMode.FITTING_SHRINK 0 10 [6, 6, 1]).length := by
    rw [LayoutCalculator.splitLines_shrink]
    norm_num [LayoutCalculator.splitLinesAux]
  exact ⟨by decide, hlen1,
    (claim_C4.1 LayoutCalculator.FittingMode.FITTING_STRETCH 0 10 [6, 6]
      (by decide)).2 0 hlen1,
    by norm_num, hlen2,
    claim_C4.2 0 10 [6, 6, 1] (by norm_num) 0 hlen2⟩

namespace LayoutCalculator

theorem foldl_stretchStep_withinMax (ord : List ℕ) (fp fps : List ℚ) :
    ∀ (idx : List ℕ) (st : List FitSizeProps × ℚ),
      (∀ r ∈ st.1, withinMaxB r = true) →
      ∀ r ∈ (idx.foldl (stretchStep ord fp fps) st).1, withinMaxB r = true := by
  intro idx
  induction idx with
  | nil =>
    intro st h r hr
    exact h r hr
  | cons i rest ih =>
    intro st h r hr
    rw [List.foldl_cons] at hr
    refine ih _ ?_ r hr
    intro r2 hr2
    unfold stretchStep at hr2
    rcases List.mem_or_eq_of_mem_set hr2 with h2 | h2
    · exact h r2 h2
    · subst h2
      exact withinMaxB_set_step _ _

theorem stretch_withinMax (l : List FitSizeProps) (ideal avail : ℚ)
    (h : ∀ r ∈ l, withinMaxB r = true) :
    ∀ r ∈ stretchSizesToFitContainer l ideal avail, withinMaxB r = true := by
  unfold stretchSizesToFitContainer
  exact foldl_stretchStep_withinMax _ _ _ _ _ h

end LayoutCalculator

theorem stretch_ord_eval :
    LayoutCalculator.getTraversalOrder stretchFixture = [0, 1, 2] := by
  norm_num [LayoutCalculator.getTraversalOrder, stretchFixture, List.enum,
    List.enumFrom, List.mergeSort, LayoutCalculator.JN.leB]

theorem stretch_norm_eval :
    LayoutCalculator.getNormalizedValues stretchFixture
      = [1/3, 1/3, 1/3] := by
  norm_num [LayoutCalculator.getNormalizedValues, stretchFixture]

theorem stretch_sums_eval :
    LayoutCalculator.createSumArray [1/3, 1/3, 1/3] [0, 1, 2]
      = [1, 2/3, 1/3] := by
  unfold LayoutCalculator.createSumArray
  dsimp only
  rw [show ([(1:ℚ)/3, 1/3, 1/3].length) = 3 from rfl]
  rw [show (List.range (3 - 1)).reverse = [1, 0] from rfl]
  rw [show ([0, 1, 2].getD (3 - 1) 0) = 2 from rfl]
  rw [show ([(1:ℚ)/3, 1/3, 1/3].getD 2 0) = 1/3 from rfl]
  rw [show ((List.replicate 3 (0:ℚ)).set 2 (1/3)) = [0, 0, 1/3] from rfl]
  rw [List.foldl_cons, List.foldl_cons, List.foldl_nil]
  norm_num [List.getD]

theorem stretch_adj0_eval :
    LayoutCalculator.calculateAdjustment 0 10 [1/3, 1/3, 1/3] [1, 2/3, 1/3]
      = 10/3 := by
  unfold LayoutCalculator.calculateAdjustment
  dsimp only
  rw [show ([(1:ℚ)/3, 1/3, 1/3].getD 0 0) = 1/3 from rfl,
    show ([(1:ℚ), 2/3, 1/3].getD 0 0) = 1 from rfl]
  rw [abs_of_pos (by norm_num : (0:ℚ) < 1/3)]
  norm_num

theorem stretch_adj1_eval :
    LayoutCalculator.calculateAdjustment 1 9 [1/3, 1/3, 1/3] [1, 2/3, 1/3]
      = 9/2 := by
  unfold LayoutCalculator.calculateAdjustment
  dsimp only
  rw [show ([(1:ℚ)/3, 1/3, 1/3].getD 1 0) = 1/3 from rfl,
    show ([(1:ℚ), 2/3, 1/3].getD 1 0) = 2/3 from rfl]
  rw [abs_of_pos (by norm_num : (0:ℚ) < 1/3)]
  norm_num

theorem stretch_adj2_eval :
    LayoutCalculator.calculateAdjustment 2 (9/2) [1/3, 1/3, 1/3] [1, 2/3, 1/3]
      = 9/2 := by
  unfold LayoutCalculator.calculateAdjustment
  dsimp only
  rw [show ([(1:ℚ)/3, 1/3, 1/3].getD 2 0) = 1/3 from rfl,
    show ([(1:ℚ), 2/3, 1/3].getD 2 0) = 1/3 from rfl]
  rw [abs_of_pos (by norm_num : (0:ℚ) < 1/3)]
  norm_num

theorem stretch_step0_eval :
    LayoutCalculator.stretchStep [0, 1, 2] [1/3, 1/3, 1/3] [1, 2/3, 1/3]
        (stretchFixture, 10) 0
      = ([⟨11, .fin 11, 1⟩, ⟨10, .fin 100, 1⟩, ⟨10, .fin 100, 1⟩], 9) := by
  unfold LayoutCalculator.stretchStep
  dsimp only
  rw [show ([0, 1, 2].getD 0 0) = 0 from rfl]
  rw [show (stretchFixture.getD 0 ⟨0, .fin 0, 0⟩)
      = (⟨10, .fin 11, 1⟩ : LayoutCalculator.FitSizeProps) from rfl]
  rw [stretch_adj0_eval]
  dsimp only
  rw [show ((10:ℚ) + 10/3) = 40/3 from by norm_num]
  rw [show (LayoutCalculator.jminQ (40/3) (.fin 11)) = 11 from by
    norm_num [LayoutCalculator.jminQ, min_def]]
  rw [show (stretchFixture.set 0 ⟨11, .fin 11, 1⟩)
      = [(⟨11, .fin 11, 1⟩ : LayoutCalculator.FitSizeProps),
         ⟨10, .fin 100, 1⟩, ⟨10, .fin 100, 1⟩] from rfl]
  norm_num [ max_def]

theorem stretch_step1_eval :
    LayoutCalculator.stretchStep [0, 1, 2] [1/3, 1/3, 1/3] [1, 2/3, 1/3]
        ([⟨11, .fin 11, 1⟩, ⟨10, .fin 100, 1⟩, ⟨10, .fin 100, 1⟩], 9) 1
      = ([⟨11, .fin 11, 1⟩, ⟨29/2, .fin 100, 1⟩, ⟨10, .fin 100, 1⟩],
         9/2) := by
  unfold LayoutCalculator.stretchStep
  dsimp only
  rw [show ([0, 1, 2].getD 1 0) = 1 from rfl]
  rw [show (([(⟨11, .fin 11, 1⟩ : LayoutCalculator.FitSizeProps),
         ⟨10, .fin 100, 1⟩, ⟨10, .fin 100, 1⟩].getD 1 ⟨0, .fin 0, 0⟩))
      = (⟨10, .fin 100, 1⟩ : LayoutCalculator.FitSizeProps) from rfl]
  rw [stretch_adj1_eval]
  dsimp only
  rw [show ((10:ℚ) + 9/2) = 29/2 from by norm_num]
  rw [show (LayoutCalculator.jminQ (29/2) (.fin 100)) = 29/2 from by
    norm_num [LayoutCalculator.jminQ, min_def]]
  rw [show (([(⟨11, .fin 11, 1⟩ : LayoutCalculator.FitSizeProps),
         ⟨10, .fin 100, 1⟩, ⟨10, .fin 100, 1⟩].set 1 ⟨29/2, .fin 100, 1⟩))
      = [(⟨11, .fin 11, 1⟩ : LayoutCalculator.FitSizeProps),
         ⟨29/2, .fin 100, 1⟩, ⟨10, .fin 100, 1⟩] from rfl]
  norm_num [ max_def]

theorem stretch_step2_eval :
    LayoutCalculator.stretchStep [0, 1, 2] [1/3, 1/3, 1/3] [1, 2/3, 1/3]
        ([⟨11, .fin 11, 1⟩, ⟨29/2, .fin 100, 1⟩, ⟨10, .fin 100, 1⟩], 9/2) 2
      = ([⟨11, .fin 11, 1⟩, ⟨29/2, .fin 100, 1⟩, ⟨29/2, .fin 100, 1⟩],
         0) := by
  unfold LayoutCalculator.stretchStep
  dsimp only
  rw [show ([0, 1, 2].getD 2 0) = 2 from rfl]
  rw [show (([(⟨11, .fin 11, 1⟩ : LayoutCalculator.FitSizeProps),
         ⟨29/2, .fin 100, 1⟩, ⟨10, .fin 100, 1⟩].getD 2 ⟨0, .fin 0, 0⟩))
      = (⟨10, .fin 100, 1⟩ : LayoutCalculator.FitSizeProps) from rfl]
  rw [stretch_adj2_eval]
  dsimp only
  rw [show ((10:ℚ) + 9/2) = 29/2 from by norm_num]
  rw [show (LayoutCalculator.jminQ (29/2) (.fin 100)) = 29/2 from by
    norm_num [LayoutCalculator.jminQ, min_def]]
  rw [show (([(⟨11, .fin 11, 1⟩ : LayoutCalculator.FitSizeProps),
         ⟨29/2, .fin 100, 1⟩, ⟨10, .fin 100, 1⟩].set 2 ⟨29/2, .fin 100, 1⟩))
      = [(⟨11, .fin 11, 1⟩ : LayoutCalculator.FitSizeProps),
         ⟨29/2, .fin 100, 1⟩, ⟨29/2, .fin 100, 1⟩] from rfl]
  norm_num [ max_def]

theorem stretch_result_eval :
    LayoutCalculator.stretchSizesToFitContainer stretchFixture 30 40
      = [⟨11, .fin 11, 1⟩, ⟨29/2, .fin 100, 1⟩, ⟨29/2, .fin 100, 1⟩] := by
  unfold LayoutCalculator.stretchSizesToFitContainer
  dsimp only
  rw [stretch_ord_eval, stretch_norm_eval, stretch_sums_eval]
  rw [show List.range stretchFixture.length = [0, 1, 2] from rfl]
  rw [show ((40:ℚ) - 30) = 10 from by norm_num]
  rw [List.foldl_cons, stretch_step0_eval, List.foldl_cons,
    stretch_step1_eval, List.foldl_cons, stretch_step2_eval, List.foldl_nil]

/-- Claim C5: stretching applies exactly when the line's ideal total is
below the available primary-axis space (FITTING_STRETCH); the stretch delta
is distributed proportionally to the fit proportions, processing elements in
ascending max-size order, and no element's final size ever exceeds its
declared max; in the fixture line, the first element's proportional share
(10/3) would exceed its max size, so it is capped at 11 and the leftover is
redistributed to the remaining two elements (9/2 each instead of 10/3),
exactly filling the 40 units of available space. -/
theorem claim_C5 :
    (∀ ideal availv : ℚ, ideal < availv →
      LayoutCalculator.determineFittingAction
          LayoutCalculator.FittingMode.FITTING_STRETCH ideal availv
        = LayoutCalculator.FittingAction.APPLY_STRETCHING) ∧
    (∀ (l : List LayoutCalculator.FitSizeProps) (ideal availv : ℚ),
      (∀ r ∈ l, LayoutCalculator.withinMaxB r = true) →
      ∀ r ∈ LayoutCalculator.stretchSizesToFitContainer l ideal availv,
        LayoutCalculator.withinMaxB r = true) ∧
    (LayoutCalculator.stretchSizesToFitContainer stretchFixture 30 40
      = [⟨11, .fin 11, 1⟩, ⟨29/2, .fin 100, 1⟩, ⟨29/2, .fin 100, 1⟩]) ∧
    (((LayoutCalculator.stretchSizesToFitContainer stretchFixture 30 40).map
        (fun r => r.size)).sum = 40) := by
  refine ⟨?_, ?_, stretch_result_eval, ?_⟩
  · intro ideal availv h
    unfold LayoutCalculator.determineFittingAction
    rw [if_pos h]
  · intro l ideal availv h
    exact LayoutCalculator.stretch_withinMax l ideal availv h
  · rw [stretch_result_eval]
    norm_num

/-- Claim C5 (witness): the fitting decision at the fixture's sizes, and the
max-bound conclusion instantiated on the fixture line. -/
theorem claim_C5_witness :
    ((30 : ℚ) < 40) ∧
    (LayoutCalculator.determineFittingAction
        LayoutCalculator.FittingMode.FITTING_STRETCH 30 40
      = LayoutCalculator.FittingAction.APPLY_STRETCHING) ∧
    (∀ r ∈ stretchFixture, LayoutCalculator.withinMaxB r = true) ∧
    (∀ r ∈ LayoutCalculator.stretchSizesToFitContainer stretchFixture 30 40,
      LayoutCalculator.withinMaxB r = true) :=
  ⟨by decide, claim_C5.1 30 40 (by decide), by decide,
    claim_C5.2.1 stretchFixture 30 40 (by decide)⟩

